import Mathlib

/-!
Shallow embedding of the recovery/projection subsystem of ASMu2Drecovery.C
(recovery techniques for unstructured LR B-splines): Greville-parameter
sampling, tensor-grid expansion, global L2 projection, superconvergent patch
recovery and regular interpolation.  Scalars are modelled as rationals; the
external collaborators (spline library, quadrature table, field evaluator,
linear solvers) are injected as record fields, matching the source's
interfaces.
-/

/-- Rectangular value matrix with 1-based entry access, modelling the
`Matrix` objects that cross the field-evaluator interface (layout
(component, point), reused as (component, basis function)). -/
structure Mtx where
  rows : Nat
  cols : Nat
  data : List (List ℚ)
deriving DecidableEq

/-- Entry of a `Mtx` at 1-based (row, column), zero outside the stored data,
modelling `Matrix::operator()(r,c)`. -/
def Mtx.ent (A : Mtx) (r c : Nat) : ℚ := (A.data.getD (r - 1) []).getD (c - 1) 0

/-- Model of `LR::Basisfunction`: Greville parameter pair, extended-support
element list and directly-supported element list (element ids, 0-based as
`Element::getId`). -/
structure Basisfunction where
  getGrevilleParameter : ℚ × ℚ
  getExtendedSupport : List Nat
  supportedElements : List Nat
deriving DecidableEq

/-- Model of `LR::LRSplineSurface`: polynomial orders in the two parametric
directions, the weighted/rational flag, the ordered basis-function list
(`getAllBasisfunctions`), the number of elements iterated by
`elementBegin()..elementEnd()`, the dense basis evaluation
`computeBasis(u,v,splineValues)` (full vector, one value per basis function),
the element-local basis evaluation `computeBasis(u,v,spl,iel-1)`, and the
geometric map `point(X,u,v)`. -/
structure LRSpline where
  order0 : Nat
  order1 : Nat
  rationalFlag : Bool
  getAllBasisfunctions : List Basisfunction
  nelems : Nat
  computeBasis : ℚ → ℚ → List ℚ
  computeBasisElem : ℚ → ℚ → Nat → List ℚ
  point : ℚ → ℚ → ℚ × ℚ

/-- Number of basis functions of the mesh (`LRSplineSurface::nBasisFunctions`). -/
def LRSpline.nBasisFunctions (lr : LRSpline) : Nat := lr.getAllBasisfunctions.length

/-- Model of the `ASMu2D` patch object: the (possibly absent) spline mesh
handle, the quadrature order `nGauss`, the node count `getNoNodes()`, the
local-to-global connectivity `MNPC`, nodal-coordinate extraction
`getElementCoordinates` (failure = `none`), the parametric element measure
`getParametricArea`, the per-element Gauss-parameter computation
`getGaussPointParameters(dir,ng,iel,table)`, and the Jacobian determinant
produced by `utl::Jacobian` at a quadrature point of an element. -/
structure ASMu2D where
  lrspline : Option LRSpline
  nGauss : Nat
  getNoNodes : Nat
  MNPC : Nat → List Nat
  getElementCoordinates : Nat → Option (List (ℚ × ℚ))
  getParametricArea : Nat → ℚ
  getGaussPointParameters : Nat → Nat → Nat → List ℚ → List ℚ
  jacobianDet : Nat → ℚ → ℚ → ℚ

/-- Injected external services: the quadrature table
(`GaussQuadrature::getCoord/getWeight`, empty for unsupported orders), the
integrand's component count `getNoFields()` and `derivativeOrder()`, the
external field evaluator `evalSolution(sField,integrand,gpar)` (writes a
(component, point) matrix, failure = `none`), and the sparse and dense direct
solvers.  Solvers are modelled from the spec (SparseMatrix/DenseMatrix are
not part of the inspected sources): `solve` returns the solution on success
and `none` on a singular/unsolvable system. -/
structure Env where
  getCoord : Nat → Option (List ℚ)
  getWeight : Nat → Option (List ℚ)
  getNoFields : Nat
  derivativeOrder : Nat
  evalSolution : List ℚ → List ℚ → Option Mtx
  sparseSolve : Nat → Nat → (Nat → Nat → ℚ) → (Nat → ℚ) → Option (Nat → ℚ)
  denseSolve : Nat → (Nat → Nat → ℚ) → (Nat → Nat → ℚ) → Option (Nat → Nat → ℚ)

/-- Greville-parameter extraction `ASMu2D::getGrevilleParameters(prm,dir)`:
fails when the mesh handle is absent or `dir` is outside 0..1, otherwise
returns the `dir`-component of every basis function's Greville parameter in
the mesh's enumeration order. -/
def ASMu2D.getGrevilleParameters (p : ASMu2D) (dir : Int) : Option (List ℚ) :=
  match p.lrspline with
  | none => none
  | some lr =>
    if dir < 0 ∨ dir > 1 then none
    else some (lr.getAllBasisfunctions.map fun b =>
      if dir = 0 then b.getGrevilleParameter.1 else b.getGrevilleParameter.2)

/-- Tensor-grid expansion `expandTensorGrid(in,out)`: the source fills the
flat outputs by the nested loop `for j < n: for i < m: out[0][ip]=in[0][i];
out[1][ip]=in[1][j]; ip++`, so the flat index is `ip = j*m + i` and the
entries are `in[0][ip % m]` and `in[1][ip / m]`. -/
def expandTensorGrid (in0 in1 : List ℚ) : List ℚ × List ℚ :=
  ((List.range (in0.length * in1.length)).map fun ip => in0.getD (ip % in0.length) 0,
   (List.range (in0.length * in1.length)).map fun ip => in1.getD (ip / in0.length) 0)

/-- Pair of the assembled sparse system: the matrix `A` (1-based nodal
indices) and the right-hand-side vector `B` of `globalL2projection`. -/
def SpSys : Type := (Nat → Nat → ℚ) × (Nat → ℚ)

/-- Scatter-add into the sparse matrix: `A(inod,jnod) += x`. -/
def bump2 (A : Nat → Nat → ℚ) (a b : Nat) (x : ℚ) : Nat → Nat → ℚ :=
  fun a' b' => if a' = a ∧ b' = b then A a' b' + x else A a' b'

/-- Scatter-add into the right-hand-side vector: `B(a) += x`. -/
def bump1 (B : Nat → ℚ) (a : Nat) (x : ℚ) : Nat → ℚ :=
  fun a' => if a' = a then B a' + x else B a'

/-- Number of quadrature points per direction chosen by `globalL2projection`:
`nGauss` in continuous mode, `order - 1` in discrete mode. -/
def l2NumGauss (continuous : Bool) (nGauss ord : Nat) : Nat :=
  if continuous then nGauss else ord - 1

/-- Contribution of one Gauss point to the global L2 system (the body of the
integration loop of `globalL2projection`): extracts the element-local basis
values, computes `dJw = dA*wg[i]*wg[j]*detJ` (continuous mode; `1.0` in
discrete mode), skips the point when `dJw == 0.0` in continuous mode, and
otherwise scatter-adds `phi[ii]*phi[jj]*dJw` into `A` and
`phi[ii]*sField(r,ip+1)*dJw` into `B` through the connectivity `MNPC`. -/
def gaussPointUpdate (continuous : Bool) (p : ASMu2D) (lr : LRSpline)
    (wg : List ℚ) (dA : ℚ) (iel : Nat) (gp0 gp1 : List ℚ) (sF : Mtx)
    (nnod ncomp i j ip : Nat) (AB : SpSys) : SpSys :=
  let u := gp0.getD i 0
  let v := gp1.getD j 0
  let phi := lr.computeBasisElem u v (iel - 1)
  let dJw : ℚ :=
    if continuous then dA * wg.getD i 0 * wg.getD j 0 * p.jacobianDet iel u v else 1
  if continuous ∧ dJw = 0 then AB
  else
    (List.range phi.length).foldl (fun AB2 ii =>
      let inod := (p.MNPC (iel - 1)).getD ii 0 + 1
      let A2 := (List.range phi.length).foldl (fun A3 jj =>
        let jnod := (p.MNPC (iel - 1)).getD jj 0 + 1
        bump2 A3 inod jnod (phi.getD ii 0 * phi.getD jj 0 * dJw)) AB2.1
      let B2 := (List.range ncomp).foldl (fun B3 r0 =>
        bump1 B3 (inod + r0 * nnod) (phi.getD ii 0 * sF.ent (r0 + 1) (ip + 1) * dJw)) AB2.2
      (A2, B2)) AB

/-- Processing of one element of the assembly loop of `globalL2projection`:
in continuous mode first extracts the nodal coordinates (failure aborts) and
checks the parametric-area factor `dA = 0.25*getParametricArea(iel)` for a
negative value (topology error, aborts); then computes the per-direction
Gauss parameters, expands them to an unstructured point list, evaluates the
field there (failure aborts; success overwrites the in-place sample matrix),
and runs the integration loop over all `ng1*ng2` Gauss points.  An abort
carries the sample matrix as it stands at that moment. -/
def l2ElementStep (continuous : Bool) (p : ASMu2D) (lr : LRSpline) (env : Env)
    (wg xg yg : List ℚ) (ng1 ng2 nnod ncomp iel : Nat)
    (st : SpSys × Mtx) : Except Mtx (SpSys × Mtx) :=
  if continuous ∧ (p.getElementCoordinates iel).isNone then Except.error st.2
  else if continuous ∧ (1/4 : ℚ) * p.getParametricArea iel < 0 then Except.error st.2
  else
    let dA := (1/4 : ℚ) * p.getParametricArea iel
    let gp0 := p.getGaussPointParameters 0 ng1 iel xg
    let gp1 := p.getGaussPointParameters 1 ng2 iel yg
    let unstr := expandTensorGrid gp0 gp1
    match env.evalSolution unstr.1 unstr.2 with
    | none => Except.error st.2
    | some sF =>
      let AB := (List.range ng2).foldl (fun ABj j =>
        (List.range ng1).foldl (fun ABi i =>
          gaussPointUpdate continuous p lr wg dA iel gp0 gp1 sF nnod ncomp i j
            (j * ng1 + i) ABi) ABj) st.1
      Except.ok (AB, sF)

/-- Assembly loop of `globalL2projection` over all elements (`iel` running
from 1), threading the sparse system and the in-place sample matrix and
aborting on the first element failure. -/
def l2ElementLoop (continuous : Bool) (p : ASMu2D) (lr : LRSpline) (env : Env)
    (wg xg yg : List ℚ) (ng1 ng2 nnod ncomp nel : Nat) (sF0 : Mtx) :
    Except Mtx (SpSys × Mtx) :=
  (List.range nel).foldlM (fun st q =>
    l2ElementStep continuous p lr env wg xg yg ng1 ng2 nnod ncomp (q + 1) st)
    ((fun _ _ => (0 : ℚ), fun _ => (0 : ℚ)), sF0)

/-- Write-back of the solved coefficients into the sample matrix, reshaped to
(component, basis function): `sField(j,i) = B(i+(j-1)*nnod)`. -/
def l2WriteBack (ncomp nnod : Nat) (Bsol : Nat → ℚ) : Mtx :=
  ⟨ncomp, nnod,
   (List.range ncomp).map fun j0 =>
     (List.range nnod).map fun i0 => Bsol ((i0 + 1) + j0 * nnod)⟩

/-- Global L2 projection `ASMu2D::globalL2projection(sField,integrand,
continuous)`, returning the success flag together with the final contents of
the in-place sample matrix.  An absent mesh is silently ignored (success);
a missing quadrature coordinate or weight table aborts before any work; the
element loop assembles the sparse system (overwriting the sample matrix with
each element's evaluated field values); the sparse solve failure aborts; on
success the solution is written back reshaped to (component, node). -/
def globalL2projection (p : ASMu2D) (env : Env) (sField : Mtx)
    (continuous : Bool) : Bool × Mtx :=
  match p.lrspline with
  | none => (true, sField)
  | some lr =>
    let ng1 := l2NumGauss continuous p.nGauss lr.order0
    let ng2 := l2NumGauss continuous p.nGauss lr.order1
    match env.getCoord ng1, env.getCoord ng2 with
    | some xg, some yg =>
      match (if continuous then env.getWeight p.nGauss else some []) with
      | none => (false, sField)
      | some wg =>
        let nnod := p.getNoNodes
        let ncomp := env.getNoFields
        match l2ElementLoop continuous p lr env wg xg yg ng1 ng2 nnod ncomp
            lr.nelems sField with
        | Except.error sF => (false, sF)
        | Except.ok (AB, sF) =>
          match env.sparseSolve nnod ncomp AB.1 AB.2 with
          | none => (false, sF)
          | some Bsol => (true, l2WriteBack ncomp nnod Bsol)
    | _, _ => (false, sField)

/-- Concrete single-basis, single-element mesh used by the concrete
evaluations below. -/
def lrW : LRSpline :=
  { order0 := 2, order1 := 2, rationalFlag := false
    getAllBasisfunctions := [⟨(0, 0), [0, 1], [0]⟩]
    nelems := 1
    computeBasis := fun _ _ => [1]
    computeBasisElem := fun _ _ _ => [1]
    point := fun u v => (u, v) }

/-- Concrete patch carrying `lrW`. -/
def pW : ASMu2D :=
  { lrspline := some lrW, nGauss := 2, getNoNodes := 1
    MNPC := fun _ => [0]
    getElementCoordinates := fun _ => some [(0, 0), (1, 0), (0, 1), (1, 1)]
    getParametricArea := fun _ => 1
    getGaussPointParameters := fun _ _ _ table => table
    jacobianDet := fun _ _ _ => 1 }

/-- Concrete patch with an absent mesh handle. -/
def pNone : ASMu2D := { pW with lrspline := none }

/-- Concrete environment whose sparse solver always fails. -/
def envFailSolve : Env :=
  { getCoord := fun n => if n = 1 then some [0] else none
    getWeight := fun _ => none
    getNoFields := 1, derivativeOrder := 0
    evalSolution := fun _ _ => some ⟨1, 1, [[5]]⟩
    sparseSolve := fun _ _ _ _ => none
    denseSolve := fun _ _ _ => none }

/-- Concrete environment with an empty quadrature table. -/
def envNoTable : Env := { envFailSolve with getCoord := fun _ => none }

/-- Monomial evaluation `evalMonomials(p1,p2,x,y,P)`: the source fills
`P(ip)` for `ip = 1..p1*p2` by the nested loop `for j < p2: for i < p1:
P(ip) = x^i * y^j; ip++`, so the 0-based flat index `q = j*p1 + i` gives
`P = x^(q % p1) * y^(q / p1)`. -/
def evalMonomials (p1 p2 : Nat) (x y : ℚ) : List ℚ :=
  (List.range (p1 * p2)).map fun q => x ^ (q % p1) * y ^ (q / p1)

/-- Support-element selection of `ASMu2D::scRecovery`: the source guards the
extended-support branch with the constant condition `if(true)` (the comment
explains it covers basis functions with too many zero knot spans), leaving
the direct-support branch (`supportedElementBegin..End`) unreached. -/
def scSupportElements (b : Basisfunction) : List Nat :=
  if true then b.getExtendedSupport else b.supportedElements

/-- Pair of the local dense fit system of `scRecovery`: the normal-equations
matrix `A` (nPol x nPol) and the right-hand side `B` (nPol x nCmp), both with
1-based function indexing. -/
def DnSys : Type := (Nat → Nat → ℚ) × (Nat → Nat → ℚ)

/-- Accumulation of one Gauss point into the local fit system of
`scRecovery`: `A(k,l) += P(k)*P(l)` and `B(k,l) += P(k)*sField(l,ig)` for
`k = 1..nPol`, `l = 1..nPol` resp. `1..nCmp`. -/
def scAccum (P : List ℚ) (nPol nCmp : Nat) (sF : Mtx) (ig : Nat)
    (AB : DnSys) : DnSys :=
  (List.range nPol).foldl (fun AB2 k0 =>
    let A2 := (List.range nPol).foldl (fun A3 l0 =>
      bump2 A3 (k0 + 1) (l0 + 1) (P.getD k0 0 * P.getD l0 0)) AB2.1
    let B2 := (List.range nCmp).foldl (fun B3 l0 =>
      bump2 B3 (k0 + 1) (l0 + 1) (P.getD k0 0 * sF.ent (l0 + 1) ig)) AB2.2
    (A2, B2)) AB

/-- Contribution of one Gauss point of one support element to the local fit
system of `scRecovery`: maps the Gauss parameters to the physical point `X`,
evaluates the monomial vector centered at the physical Greville point `G`
(`evalMonomials(n1,n2,X[0]-G[0],X[1]-G[1],P)`), and accumulates. -/
def scGaussUpdate (lr : LRSpline) (n1 n2 nCmp : Nat) (G : ℚ × ℚ) (sF : Mtx)
    (gp0 gp1 : List ℚ) (i j ig : Nat) (AB : DnSys) : DnSys :=
  let X := lr.point (gp0.getD i 0) (gp1.getD j 0)
  scAccum (evalMonomials n1 n2 (X.1 - G.1) (X.2 - G.2)) (n1 * n2) nCmp sF ig AB

/-- Assembly of the local fit system of one basis function of `scRecovery`
over its support-element list: per element, computes the Gauss parameters,
expands them to the unstructured representation, evaluates the field there
(failure aborts the whole recovery), and accumulates all `ng1*ng2` Gauss
points (1-based running flat index `ig`). -/
def scAssemble (p : ASMu2D) (lr : LRSpline) (env : Env)
    (ng1 ng2 n1 n2 : Nat) (xg yg : List ℚ) (G : ℚ × ℚ) (els : List Nat) :
    Option DnSys :=
  els.foldlM (fun AB el =>
    let iel := el + 1
    let gp0 := p.getGaussPointParameters 0 ng1 iel xg
    let gp1 := p.getGaussPointParameters 1 ng2 iel yg
    let unstr := expandTensorGrid gp0 gp1
    match env.evalSolution unstr.1 unstr.2 with
    | none => none
    | some sF => some ((List.range ng2).foldl (fun ABj j =>
        (List.range ng1).foldl (fun ABi i =>
          scGaussUpdate lr n1 n2 env.getNoFields G sF gp0 gp1 i j
            (j * ng1 + i + 1) ABi) ABj) AB))
    ((fun _ _ => (0 : ℚ)), (fun _ _ => (0 : ℚ)))

/-- Local polynomial fit of one basis function of `scRecovery`: assembles
the system over the (always extended) support of the basis function, solves
the local dense system, and takes row 1 of the solution — the constant term
of the centered expansion — as the recovered value of each component. -/
def scFitBasis (p : ASMu2D) (lr : LRSpline) (env : Env)
    (ng1 ng2 n1 n2 : Nat) (xg yg : List ℚ) (G : ℚ × ℚ) (b : Basisfunction) :
    Option (Nat → ℚ) :=
  match scAssemble p lr env ng1 ng2 n1 n2 xg yg G (scSupportElements b) with
  | none => none
  | some sys =>
    match env.denseSolve (n1 * n2) sys.1 sys.2 with
    | none => none
    | some Bsol => some (fun l => Bsol 1 l)

/-- Recovered mesh object produced by `regularInterpolation`: a copy of the
input mesh whose coefficient dimensionality is rebuilt to the component
count and whose control-point values are the solved coefficients
(`cp` at 1-based (basis function, component)). -/
structure LRSplineField where
  base : LRSpline
  dim : Nat
  cp : Nat → Nat → ℚ

/-- Interpolation matrix of `ASMu2D::regularInterpolation`: every basis
function evaluated at every sample point, same row = same evaluation point
(`A(i+1,j+1) = splineValues.basisValues[j]` at point i). -/
def interpMatrix (lr : LRSpline) (upar vpar : List ℚ) : Nat → Nat → ℚ :=
  fun i j => (lr.computeBasis (upar.getD (i - 1) 0) (vpar.getD (i - 1) 0)).getD (j - 1) 0

/-- Right-hand side of `regularInterpolation`: the transposed input value
matrix (`Matrix B(points,true)`). -/
def interpRhs (points : Mtx) : Nat → Nat → ℚ := fun i c => points.ent c i

/-- Point interpolation `ASMu2D::regularInterpolation(upar,vpar,points)`:
fails for a rational (weighted) basis, for input array sizes mismatching the
basis-function count, and for an unsolvable dense system; otherwise returns
the copied mesh carrying the solved control values. -/
def regularInterpolation (lr : LRSpline) (env : Env) (upar vpar : List ℚ)
    (points : Mtx) : Option LRSplineField :=
  if lr.rationalFlag then none
  else if upar.length ≠ lr.nBasisFunctions ∨ vpar.length ≠ lr.nBasisFunctions ∨
      points.cols ≠ lr.nBasisFunctions then none
  else
    match env.denseSolve lr.nBasisFunctions (interpMatrix lr upar vpar)
        (interpRhs points) with
    | none => none
    | some X => some ⟨lr, points.rows, X⟩

/-- Loop of `scRecovery` over all Greville points (one per basis function):
fits each basis function locally and collects the recovered values into the
(component, basis function) sample matrix `sValues(l,ip)`. -/
def scGrevilleLoop (p : ASMu2D) (lr : LRSpline) (env : Env)
    (ng1 ng2 n1 n2 : Nat) (xg yg : List ℚ) (gpar0 gpar1 : List ℚ) :
    Option Mtx :=
  match lr.getAllBasisfunctions.enum.mapM (fun ib =>
      scFitBasis p lr env ng1 ng2 n1 n2 xg yg
        (lr.point (gpar0.getD ib.1 0) (gpar1.getD ib.1 0)) ib.2) with
  | none => none
  | some vals => some ⟨env.getNoFields, vals.length,
      (List.range env.getNoFields).map fun l0 => vals.map fun v => v (l0 + 1)⟩

/-- Body of `ASMu2D::scRecovery` after the mesh handle has been
dereferenced: computes the quadrature orders `ng = order - m`, fetches the
quadrature coordinates (missing table aborts), the Greville parameters, the
patch sizes `n1 = order0 - m + 1`, `n2 = order1 - m + 1`, runs the
per-basis-function recovery loop and hands the recovered Greville values to
`regularInterpolation`. -/
def scRecoveryBody (p : ASMu2D) (lr : LRSpline) (env : Env) :
    Option LRSplineField :=
  let m := env.derivativeOrder
  match env.getCoord (lr.order0 - m), env.getCoord (lr.order1 - m) with
  | some xg, some yg =>
    match p.getGrevilleParameters 0, p.getGrevilleParameters 1 with
    | some gpar0, some gpar1 =>
      match scGrevilleLoop p lr env (lr.order0 - m) (lr.order1 - m)
          (lr.order0 - m + 1) (lr.order1 - m + 1) xg yg gpar0 gpar1 with
      | none => none
      | some sValues => regularInterpolation lr env gpar0 gpar1 sValues
    | _, _ => none
  | _, _ => none

/-- Superconvergent patch recovery `ASMu2D::scRecovery(integrand)`: the
source queries `lrspline->order(0)` and `lrspline->order(1)` before any
absence check on the mesh handle, so an absent mesh dereferences a null
pointer instead of returning the documented null result; this undefined
outcome is modelled as `Except.error ()`, while every run on a present mesh
produces the documented `Option` result. -/
def scRecovery (p : ASMu2D) (env : Env) : Except Unit (Option LRSplineField) :=
  match p.lrspline with
  | none => Except.error ()
  | some lr => Except.ok (scRecoveryBody p lr env)

/-- Entry (i, c) of the product of an n-column matrix with a solution
matrix, modelling what the dense solver guarantees about a returned
solution. -/
def matMulEntry (n : Nat) (A X : Nat → Nat → ℚ) (i c : Nat) : ℚ :=
  ((List.range n).map fun j => A i (j + 1) * X (j + 1) c).sum

/-- Correctness of the injected dense solver, modelled from the spec: a
solution returned by the dense-direct solve satisfies the linear system
`A*X = B` on its `n` rows. -/
def DenseSolveCorrect (env : Env) : Prop :=
  ∀ n A B X, env.denseSolve n A B = some X →
    ∀ i c, 1 ≤ i → i ≤ n → matMulEntry n A X i c = B i c

/-- Modelled from the spec: evaluation of the field carried by the recovered
mesh object (the external spline library's field evaluation): the value at a
parametric point is the sum over all basis functions of the basis value
times the control coefficient of the requested component. -/
def LRSplineField.evalField (f : LRSplineField) (u v : ℚ) (c : Nat) : ℚ :=
  ((List.range (f.base.computeBasis u v).length).map fun j =>
    (f.base.computeBasis u v).getD j 0 * f.cp (j + 1) c).sum

/-- Concrete environment whose dense solver handles 1x1 systems with a unit
diagonal (and satisfies the dense-solver correctness contract). -/
def envSolve1 : Env :=
  { envFailSolve with
    denseSolve := fun n A B => if n = 1 ∧ A 1 1 = 1 then some B else none }

/-- Entries of a mapped `List.range`: helper for the tensor-grid indexing
lemmas. -/
theorem getD_map_range (N q : Nat) (f : Nat → ℚ) (hq : q < N) :
    (((List.range N).map f).getD q 0) = f q := by
  rw [List.getD_eq_getElem?_getD, List.getElem?_map, List.getElem?_range hq]
  rfl

/-- C2: `expandTensorGrid` on inputs of lengths m and n produces two outputs
of length m*n with `out0[i*m+k] = in0[k]` and `out1[i*m+k] = in1[i]` (first
direction varying fastest), and the documented concrete case holds exactly. -/
theorem expandTensorGrid_spec_C2 :
    (∀ in0 in1 : List ℚ,
      (expandTensorGrid in0 in1).1.length = in0.length * in1.length ∧
      (expandTensorGrid in0 in1).2.length = in0.length * in1.length) ∧
    (∀ (in0 in1 : List ℚ) (i k : Nat), k < in0.length → i < in1.length →
      (expandTensorGrid in0 in1).1.getD (i * in0.length + k) 0 = in0.getD k 0 ∧
      (expandTensorGrid in0 in1).2.getD (i * in0.length + k) 0 = in1.getD i 0) ∧
    expandTensorGrid [0, 1, 2] [2, 3, 5] =
      ([0, 1, 2, 0, 1, 2, 0, 1, 2], [2, 2, 2, 3, 3, 3, 5, 5, 5]) := by
  refine ⟨fun in0 in1 => ⟨by simp [expandTensorGrid], by simp [expandTensorGrid]⟩,
    fun in0 in1 i k hk hi => ?_, by decide⟩
  have hm : 0 < in0.length := by omega
  have hlt : i * in0.length + k < in0.length * in1.length := by
    calc i * in0.length + k < i * in0.length + in0.length := by omega
    _ = (i + 1) * in0.length := by ring
    _ ≤ in1.length * in0.length := Nat.mul_le_mul_right _ (by omega)
    _ = in0.length * in1.length := Nat.mul_comm _ _
  constructor
  · rw [show (expandTensorGrid in0 in1).1 =
        (List.range (in0.length * in1.length)).map
          (fun ip => in0.getD (ip % in0.length) 0) from rfl,
      getD_map_range _ _ _ hlt]
    congr 1
    rw [Nat.add_comm, Nat.add_mul_mod_self_right, Nat.mod_eq_of_lt hk]
  · rw [show (expandTensorGrid in0 in1).2 =
        (List.range (in0.length * in1.length)).map
          (fun ip => in1.getD (ip / in0.length) 0) from rfl,
      getD_map_range _ _ _ hlt]
    congr 1
    rw [Nat.add_comm, Nat.add_mul_div_right _ _ hm, Nat.div_eq_of_lt hk, Nat.zero_add]

/-- C8: `getGrevilleParameters` succeeds with exactly one coordinate per
basis function, in the mesh's basis-function enumeration order, whenever the
mesh is present and the direction is 0 or 1, and fails exactly when the mesh
is absent or the direction is out of range. -/
theorem grevilleParameters_spec_C8 :
    (∀ (p : ASMu2D) (lr : LRSpline) (dir : Int), p.lrspline = some lr →
      0 ≤ dir → dir ≤ 1 →
      p.getGrevilleParameters dir =
        some (lr.getAllBasisfunctions.map fun b =>
          if dir = 0 then b.getGrevilleParameter.1 else b.getGrevilleParameter.2) ∧
      ∀ prm, p.getGrevilleParameters dir = some prm →
        prm.length = lr.nBasisFunctions) ∧
    (∀ (p : ASMu2D) (dir : Int),
      p.getGrevilleParameters dir = none ↔
        p.lrspline = none ∨ dir < 0 ∨ 1 < dir) := by
  constructor
  · intro p lr dir hlr h0 h1
    have hcond : ¬(dir < 0 ∨ dir > 1) := by omega
    constructor
    · simp [ASMu2D.getGrevilleParameters, hlr, hcond]
    · intro prm hprm
      simp [ASMu2D.getGrevilleParameters, hlr, hcond] at hprm
      rw [← hprm]
      simp [LRSpline.nBasisFunctions]
  · intro p dir
    cases hlr : p.lrspline with
    | none => simp [ASMu2D.getGrevilleParameters, hlr]
    | some lr =>
      by_cases hcond : dir < 0 ∨ dir > 1
      · simp [ASMu2D.getGrevilleParameters, hlr, hcond]
      · simp [ASMu2D.getGrevilleParameters, hlr, hcond]

/-- Witness for C8 at a concrete patch and direction. -/
theorem grevilleParameters_spec_C8_witness :
    pW.getGrevilleParameters 0 = some [(0 : ℚ)] ∧
    (pW.getGrevilleParameters 2 = none ↔ pW.lrspline = none ∨ (2 : Int) < 0 ∨ 1 < (2 : Int)) :=
  ⟨(grevilleParameters_spec_C8.1 pW lrW 0 rfl (by decide) (by decide)).1,
   grevilleParameters_spec_C8.2 pW 2⟩

/-- C9: with an absent mesh handle, `globalL2projection` returns success
immediately and leaves the sample matrix untouched, for every field matrix,
environment and value of the continuous flag. -/
theorem globalL2_empty_patch_C9 (p : ASMu2D) (env : Env) (sField : Mtx)
    (continuous : Bool) (h : p.lrspline = none) :
    globalL2projection p env sField continuous = (true, sField) := by
  simp [globalL2projection, h]

/-- Witness for C9 at a concrete empty patch. -/
theorem globalL2_empty_patch_C9_witness :
    globalL2projection pNone envFailSolve ⟨1, 1, [[7]]⟩ true = (true, ⟨1, 1, [[7]]⟩) :=
  globalL2_empty_patch_C9 pNone envFailSolve ⟨1, 1, [[7]]⟩ true rfl

/-- Abort of a continuous-mode element step on a nodal-coordinate extraction
failure or a negative parametric-area factor, carrying the current sample
matrix. -/
theorem l2ElementStep_cont_abort (p : ASMu2D) (lr : LRSpline) (env : Env)
    (wg xg yg : List ℚ) (ng1 ng2 nnod ncomp iel : Nat) (st : SpSys × Mtx)
    (h : p.getElementCoordinates iel = none ∨
         (1/4 : ℚ) * p.getParametricArea iel < 0) :
    l2ElementStep true p lr env wg xg yg ng1 ng2 nnod ncomp iel st =
      Except.error st.2 := by
  unfold l2ElementStep
  by_cases hc : (p.getElementCoordinates iel).isNone
  · rw [if_pos ⟨rfl, hc⟩]
  · rcases h with h | h
    · exact absurd (by simp [h]) hc
    · rw [if_neg fun hh => hc hh.2, if_pos ⟨rfl, h⟩]

/-- Propagation of a failure of the first element step through the whole
assembly loop. -/
theorem l2ElementLoop_first_error (c : Bool) (p : ASMu2D) (lr : LRSpline)
    (env : Env) (wg xg yg : List ℚ) (ng1 ng2 nnod ncomp k : Nat) (s e : Mtx)
    (h : l2ElementStep c p lr env wg xg yg ng1 ng2 nnod ncomp 1
          ((fun _ _ => (0 : ℚ), fun _ => (0 : ℚ)), s) = Except.error e) :
    l2ElementLoop c p lr env wg xg yg ng1 ng2 nnod ncomp (k + 1) s =
      Except.error e := by
  unfold l2ElementLoop
  rw [List.range_succ_eq_map, List.foldlM_cons, h]
  rfl

/-- Reduction of `globalL2projection` once both quadrature lookups, the
weight lookup and the element loop are known. -/
theorem globalL2_unfold (p : ASMu2D) (env : Env) (s : Mtx) (c : Bool)
    (lr : LRSpline) (xg yg wg : List ℚ) (hlr : p.lrspline = some lr)
    (hx : env.getCoord (l2NumGauss c p.nGauss lr.order0) = some xg)
    (hy : env.getCoord (l2NumGauss c p.nGauss lr.order1) = some yg)
    (hw : (if c then env.getWeight p.nGauss else some []) = some wg) :
    globalL2projection p env s c =
      match l2ElementLoop c p lr env wg xg yg
          (l2NumGauss c p.nGauss lr.order0) (l2NumGauss c p.nGauss lr.order1)
          p.getNoNodes env.getNoFields lr.nelems s with
      | Except.error sF => (false, sF)
      | Except.ok (AB, sF) =>
        match env.sparseSolve p.getNoNodes env.getNoFields AB.1 AB.2 with
        | none => (false, sF)
        | some Bsol => (true, l2WriteBack env.getNoFields p.getNoNodes Bsol) := by
  unfold globalL2projection
  rw [hlr]
  simp only [hx, hy, hw]

/-- Reduction of `globalL2projection` to immediate failure when a quadrature
coordinate or weight table is missing. -/
theorem globalL2_no_table (p : ASMu2D) (env : Env) (s : Mtx) (c : Bool)
    (lr : LRSpline) (hlr : p.lrspline = some lr)
    (h : env.getCoord (l2NumGauss c p.nGauss lr.order0) = none ∨
         env.getCoord (l2NumGauss c p.nGauss lr.order1) = none ∨
         (c = true ∧ env.getWeight p.nGauss = none)) :
    globalL2projection p env s c = (false, s) := by
  simp only [globalL2projection, hlr]
  rcases h with h | h | h
  · rw [h]
  · rw [h]
    cases hx : env.getCoord (l2NumGauss c p.nGauss lr.order0) <;> simp [hx]
  · obtain ⟨hc, hw⟩ := h
    subst hc
    cases hx : env.getCoord (l2NumGauss true p.nGauss lr.order0) with
    | none => simp [hx]
    | some xg =>
      cases hy : env.getCoord (l2NumGauss true p.nGauss lr.order1) with
      | none => simp [hx, hy]
      | some yg => simp [hx, hy, hw]

/-- C1 (amended): failures detected before any field evaluation — a missing
quadrature coordinate/weight table, or (continuous mode) a nodal-coordinate
or negative-area failure on the first element — return failure with the
sample matrix holding exactly its original contents; but a failure occurring
after the element loop (in particular a sparse-solver failure) returns with
the sample matrix holding whatever the element loop last wrote into it (the
Gauss-point samples of the last evaluated element), not its original
contents. -/
theorem globalL2_failure_field_contents_C1 :
    (∀ (p : ASMu2D) (env : Env) (s : Mtx) (c : Bool) (lr : LRSpline),
      p.lrspline = some lr →
      (env.getCoord (l2NumGauss c p.nGauss lr.order0) = none ∨
       env.getCoord (l2NumGauss c p.nGauss lr.order1) = none ∨
       (c = true ∧ env.getWeight p.nGauss = none)) →
      globalL2projection p env s c = (false, s)) ∧
    (∀ (p : ASMu2D) (env : Env) (s : Mtx) (lr : LRSpline) (xg wg : List ℚ)
       (k : Nat),
      p.lrspline = some lr →
      env.getCoord p.nGauss = some xg →
      env.getWeight p.nGauss = some wg →
      lr.nelems = k + 1 →
      (p.getElementCoordinates 1 = none ∨
       (1/4 : ℚ) * p.getParametricArea 1 < 0) →
      globalL2projection p env s true = (false, s)) ∧
    (∀ (p : ASMu2D) (env : Env) (s : Mtx) (c : Bool) (lr : LRSpline)
       (xg yg wg : List ℚ) (AB : SpSys) (sF : Mtx),
      p.lrspline = some lr →
      env.getCoord (l2NumGauss c p.nGauss lr.order0) = some xg →
      env.getCoord (l2NumGauss c p.nGauss lr.order1) = some yg →
      (if c then env.getWeight p.nGauss else some []) = some wg →
      l2ElementLoop c p lr env wg xg yg (l2NumGauss c p.nGauss lr.order0)
        (l2NumGauss c p.nGauss lr.order1) p.getNoNodes env.getNoFields
        lr.nelems s = Except.ok (AB, sF) →
      env.sparseSolve p.getNoNodes env.getNoFields AB.1 AB.2 = none →
      globalL2projection p env s c = (false, sF)) := by
  refine ⟨fun p env s c lr hlr h => globalL2_no_table p env s c lr hlr h,
    fun p env s lr xg wg k hlr hx hw hk h => ?_,
    fun p env s c lr xg yg wg AB sF hlr hx hy hw hloop hsolve => ?_⟩
  · rw [globalL2_unfold p env s true lr xg xg wg hlr hx hx hw, hk,
      l2ElementLoop_first_error true p lr env wg xg xg _ _ _ _ k s s
        (l2ElementStep_cont_abort p lr env wg xg xg _ _ _ _ 1 _ h)]
  · rw [globalL2_unfold p env s c lr xg yg wg hlr hx hy hw, hloop]
    simp only [hsolve]

/-- Witness for the amended C1 at a concrete patch with no quadrature table:
the sample matrix comes back unchanged. -/
theorem globalL2_failure_field_contents_C1_witness :
    globalL2projection pW envNoTable ⟨1, 1, [[0]]⟩ true = (false, ⟨1, 1, [[0]]⟩) :=
  globalL2_failure_field_contents_C1.1 pW envNoTable ⟨1, 1, [[0]]⟩ true lrW rfl
    (Or.inl rfl)

/-- Counterexample to C1 as stated: a discrete-mode projection on a concrete
one-element patch whose sparse solver fails returns failure, but the sample
matrix now holds the element's evaluated Gauss-point samples instead of its
original contents. -/
theorem globalL2_failure_mutates_field_C1_cex :
    (globalL2projection pW envFailSolve ⟨1, 1, [[0]]⟩ false).1 = false ∧
    (globalL2projection pW envFailSolve ⟨1, 1, [[0]]⟩ false).2 ≠ ⟨1, 1, [[0]]⟩ := by
  constructor
  · rfl
  · decide

/-- C4: `globalL2projection` reports failure for a missing quadrature
coordinate/weight table, aborts an element step on a nodal-coordinate
extraction failure or a negative parametric-area factor (and such an abort
makes the whole operation fail), reports failure when the sparse solve
fails, while a Gauss point whose Jacobian weight `dJw` is zero contributes
nothing and the integration simply continues (the point update has no
failure outcome at all). -/
theorem globalL2_failure_modes_C4 :
    (∀ (p : ASMu2D) (env : Env) (s : Mtx) (c : Bool) (lr : LRSpline),
      p.lrspline = some lr →
      (env.getCoord (l2NumGauss c p.nGauss lr.order0) = none ∨
       env.getCoord (l2NumGauss c p.nGauss lr.order1) = none ∨
       (c = true ∧ env.getWeight p.nGauss = none)) →
      (globalL2projection p env s c).1 = false) ∧
    (∀ (p : ASMu2D) (lr : LRSpline) (env : Env) (wg xg yg : List ℚ)
       (ng1 ng2 nnod ncomp iel : Nat) (st : SpSys × Mtx),
      (p.getElementCoordinates iel = none ∨
       (1/4 : ℚ) * p.getParametricArea iel < 0) →
      l2ElementStep true p lr env wg xg yg ng1 ng2 nnod ncomp iel st =
        Except.error st.2) ∧
    (∀ (p : ASMu2D) (env : Env) (s : Mtx) (c : Bool) (lr : LRSpline)
       (xg yg wg : List ℚ) (sF : Mtx),
      p.lrspline = some lr →
      env.getCoord (l2NumGauss c p.nGauss lr.order0) = some xg →
      env.getCoord (l2NumGauss c p.nGauss lr.order1) = some yg →
      (if c then env.getWeight p.nGauss else some []) = some wg →
      l2ElementLoop c p lr env wg xg yg (l2NumGauss c p.nGauss lr.order0)
        (l2NumGauss c p.nGauss lr.order1) p.getNoNodes env.getNoFields
        lr.nelems s = Except.error sF →
      globalL2projection p env s c = (false, sF)) ∧
    (∀ (p : ASMu2D) (env : Env) (s : Mtx) (c : Bool) (lr : LRSpline)
       (xg yg wg : List ℚ) (AB : SpSys) (sF : Mtx),
      p.lrspline = some lr →
      env.getCoord (l2NumGauss c p.nGauss lr.order0) = some xg →
      env.getCoord (l2NumGauss c p.nGauss lr.order1) = some yg →
      (if c then env.getWeight p.nGauss else some []) = some wg →
      l2ElementLoop c p lr env wg xg yg (l2NumGauss c p.nGauss lr.order0)
        (l2NumGauss c p.nGauss lr.order1) p.getNoNodes env.getNoFields
        lr.nelems s = Except.ok (AB, sF) →
      env.sparseSolve p.getNoNodes env.getNoFields AB.1 AB.2 = none →
      (globalL2projection p env s c).1 = false) ∧
    (∀ (p : ASMu2D) (lr : LRSpline) (wg : List ℚ) (dA : ℚ) (iel : Nat)
       (gp0 gp1 : List ℚ) (sF : Mtx) (nnod ncomp i j ip : Nat) (AB : SpSys),
      dA * wg.getD i 0 * wg.getD j 0 *
        p.jacobianDet iel (gp0.getD i 0) (gp1.getD j 0) = 0 →
      gaussPointUpdate true p lr wg dA iel gp0 gp1 sF nnod ncomp i j ip AB = AB) := by
  refine ⟨fun p env s c lr hlr h => by rw [globalL2_no_table p env s c lr hlr h],
    fun p lr env wg xg yg ng1 ng2 nnod ncomp iel st h =>
      l2ElementStep_cont_abort p lr env wg xg yg ng1 ng2 nnod ncomp iel st h,
    fun p env s c lr xg yg wg sF hlr hx hy hw hloop => ?_,
    fun p env s c lr xg yg wg AB sF hlr hx hy hw hloop hsolve => ?_,
    fun p lr wg dA iel gp0 gp1 sF nnod ncomp i j ip AB h => ?_⟩
  · rw [globalL2_unfold p env s c lr xg yg wg hlr hx hy hw, hloop]
  · rw [globalL2_unfold p env s c lr xg yg wg hlr hx hy hw, hloop]
    simp only [hsolve]
  · simp only [gaussPointUpdate]
    rw [if_pos ⟨trivial, h⟩]

/-- Witness for C4 at a concrete discrete-mode run with no quadrature table. -/
theorem globalL2_failure_modes_C4_witness :
    (globalL2projection pW envNoTable ⟨1, 1, [[0]]⟩ false).1 = false :=
  globalL2_failure_modes_C4.1 pW envNoTable ⟨1, 1, [[0]]⟩ false lrW rfl (Or.inl rfl)

/-- Correctness of the concrete 1x1 dense solver. -/
theorem envSolve1_correct : DenseSolveCorrect envSolve1 := by
  intro n A B X h i c h1 h2
  have h' : (if n = 1 ∧ A 1 1 = 1 then some B else none) = some X := h
  by_cases hc : n = 1 ∧ A 1 1 = 1
  · rw [if_pos hc] at h'
    injection h' with hBX
    subst hBX
    obtain ⟨hn, hA⟩ := hc
    subst hn
    have hi1 : i = 1 := by omega
    subst hi1
    have hr1 : List.range 1 = [0] := rfl
    simp [matMulEntry, hr1, hA]
  · rw [if_neg hc] at h'
    exact absurd h' (by simp)

/-- C3: the support-element set iterated by the local fit of `scRecovery` is
always the basis function's extended support; whenever the direct-support
set differs from the extended one, the iterated set is not the direct
support. -/
theorem scSupport_extended_C3 :
    (∀ b : Basisfunction, scSupportElements b = b.getExtendedSupport) ∧
    (∀ b : Basisfunction, b.supportedElements ≠ b.getExtendedSupport →
      scSupportElements b ≠ b.supportedElements) := by
  refine ⟨fun b => rfl, fun b h => ?_⟩
  simp only [scSupportElements, if_pos rfl]
  exact fun hh => h hh.symm

/-- Witness for C3 at a concrete basis function whose direct support is a
strict subset of its extended support. -/
theorem scSupport_extended_C3_witness :
    scSupportElements ⟨(0, 0), [0, 1], [0]⟩ ≠ [0] :=
  scSupport_extended_C3.2 ⟨(0, 0), [0, 1], [0]⟩ (by decide)

/-- C5: the local fit of `scRecovery` uses the full tensor monomial basis of
`n1*n2` terms (`x^(q mod n1) * y^(q div n1)` at flat index q), whose first
entry (row 1 of the system) is the constant monomial; the monomials are
evaluated at the offset of the physical Gauss point from the physical
Greville point; and a successful local solve yields row 1 of the solution as
the recovered value of every component. -/
theorem scRecovery_local_fit_C5 :
    (∀ (p1 p2 : Nat) (x y : ℚ), (evalMonomials p1 p2 x y).length = p1 * p2) ∧
    (∀ (p1 p2 : Nat) (x y : ℚ) (q : Nat), q < p1 * p2 →
      (evalMonomials p1 p2 x y).getD q 0 = x ^ (q % p1) * y ^ (q / p1)) ∧
    (∀ (p1 p2 : Nat) (x y : ℚ), 0 < p1 * p2 →
      (evalMonomials p1 p2 x y).getD 0 0 = 1) ∧
    (∀ (lr : LRSpline) (n1 n2 nCmp : Nat) (G : ℚ × ℚ) (sF : Mtx)
       (gp0 gp1 : List ℚ) (i j ig : Nat) (AB : DnSys),
      scGaussUpdate lr n1 n2 nCmp G sF gp0 gp1 i j ig AB =
        scAccum (evalMonomials n1 n2
          ((lr.point (gp0.getD i 0) (gp1.getD j 0)).1 - G.1)
          ((lr.point (gp0.getD i 0) (gp1.getD j 0)).2 - G.2))
          (n1 * n2) nCmp sF ig AB) ∧
    (∀ (p : ASMu2D) (lr : LRSpline) (env : Env) (ng1 ng2 n1 n2 : Nat)
       (xg yg : List ℚ) (G : ℚ × ℚ) (b : Basisfunction) (sys : DnSys)
       (Bsol : Nat → Nat → ℚ),
      scAssemble p lr env ng1 ng2 n1 n2 xg yg G (scSupportElements b) =
        some sys →
      env.denseSolve (n1 * n2) sys.1 sys.2 = some Bsol →
      scFitBasis p lr env ng1 ng2 n1 n2 xg yg G b = some (fun l => Bsol 1 l)) := by
  refine ⟨fun p1 p2 x y => by simp [evalMonomials],
    fun p1 p2 x y q hq => getD_map_range _ _ _ hq,
    fun p1 p2 x y h => ?_, fun lr n1 n2 nCmp G sF gp0 gp1 i j ig AB => rfl,
    fun p lr env ng1 ng2 n1 n2 xg yg G b sys Bsol h1 h2 => ?_⟩
  · show ((List.range (p1 * p2)).map fun q =>
        x ^ (q % p1) * y ^ (q / p1)).getD 0 0 = 1
    rw [getD_map_range _ _ _ h]
    simp
  · unfold scFitBasis
    rw [h1]
    simp [h2]

/-- Witness for C5: the concrete 2x2 monomial basis at offsets (3,4) has the
constant monomial in row 1 and the product monomial at flat index 3. -/
theorem scRecovery_local_fit_C5_witness :
    (evalMonomials 2 2 3 4).getD 0 0 = 1 ∧
    (evalMonomials 2 2 (3 : ℚ) 4).getD 3 0 = 3 ^ (3 % 2) * 4 ^ (3 / 2) :=
  ⟨scRecovery_local_fit_C5.2.2.1 2 2 3 4 (by decide),
   scRecovery_local_fit_C5.2.1 2 2 3 4 3 (by decide)⟩

/-- C6: `regularInterpolation` fails exactly when the basis is rational
(weighted), or an input array size mismatches the basis-function count, or
the dense interpolation system is unsolvable; otherwise it returns a mesh. -/
theorem regularInterpolation_failure_iff_C6 (lr : LRSpline) (env : Env)
    (upar vpar : List ℚ) (points : Mtx) :
    regularInterpolation lr env upar vpar points = none ↔
      (lr.rationalFlag = true ∨ upar.length ≠ lr.nBasisFunctions ∨
       vpar.length ≠ lr.nBasisFunctions ∨ points.cols ≠ lr.nBasisFunctions ∨
       env.denseSolve lr.nBasisFunctions (interpMatrix lr upar vpar)
         (interpRhs points) = none) := by
  unfold regularInterpolation
  cases hr : lr.rationalFlag with
  | true => simp
  | false =>
    by_cases hs : upar.length ≠ lr.nBasisFunctions ∨
        vpar.length ≠ lr.nBasisFunctions ∨ points.cols ≠ lr.nBasisFunctions
    · simp [hs]
      tauto
    · cases hX : env.denseSolve lr.nBasisFunctions (interpMatrix lr upar vpar)
          (interpRhs points) with
      | none => simp [hs, hX]
      | some X =>
        simp [hs, hX]

/-- C7: when `regularInterpolation` succeeds under a correct dense solver,
evaluating the field of the produced mesh at the i-th sample point
reproduces the i-th column of the input value matrix for every component
(exact reproduction of the sampled values by the computed control
coefficients). -/
theorem regularInterpolation_roundtrip_C7 (lr : LRSpline) (env : Env)
    (upar vpar : List ℚ) (points : Mtx) (mesh : LRSplineField)
    (hcorrect : DenseSolveCorrect env)
    (hmesh : regularInterpolation lr env upar vpar points = some mesh)
    (i c : Nat) (hi : i < lr.nBasisFunctions)
    (hlen : (lr.computeBasis (upar.getD i 0) (vpar.getD i 0)).length =
      lr.nBasisFunctions) :
    mesh.evalField (upar.getD i 0) (vpar.getD i 0) c = points.ent c (i + 1) := by
  unfold regularInterpolation at hmesh
  split at hmesh
  · exact absurd hmesh (by simp)
  · split at hmesh
    · exact absurd hmesh (by simp)
    · cases hX : env.denseSolve lr.nBasisFunctions (interpMatrix lr upar vpar)
          (interpRhs points) with
      | none => rw [hX] at hmesh; exact absurd hmesh (by simp)
      | some X =>
        rw [hX] at hmesh
        injection hmesh with hm
        subst hm
        have hax := hcorrect _ _ _ _ hX (i + 1) c (by omega) (by omega)
        have h1 : LRSplineField.evalField ⟨lr, points.rows, X⟩
            (upar.getD i 0) (vpar.getD i 0) c =
            matMulEntry lr.nBasisFunctions (interpMatrix lr upar vpar) X
              (i + 1) c := by
          unfold LRSplineField.evalField matMulEntry
          rw [hlen]
          rfl
        rw [h1, hax]
        rfl

/-- Witness for C7 on the concrete one-basis mesh: the produced field
reproduces the sampled value at the sample point. -/
theorem regularInterpolation_roundtrip_C7_witness :
    LRSplineField.evalField ⟨lrW, 1, interpRhs ⟨1, 1, [[7]]⟩⟩ 0 0 1 =
      Mtx.ent ⟨1, 1, [[7]]⟩ 1 1 :=
  regularInterpolation_roundtrip_C7 lrW envSolve1 [0] [0] ⟨1, 1, [[7]]⟩
    ⟨lrW, 1, interpRhs ⟨1, 1, [[7]]⟩⟩ envSolve1_correct rfl 0 1 (by decide) rfl

/-- C10: `scRecovery` queries the mesh's polynomial orders before any
absence check, so an absent mesh handle does not produce the documented
null-result failure (modelled as the undefined outcome `Except.error ()`),
while under the present-mesh precondition the early dereferences are safe
and every run yields the documented `Option` result. -/
theorem scRecovery_null_mesh_C10 :
    (∀ (p : ASMu2D) (env : Env), p.lrspline = none →
      scRecovery p env = Except.error ()) ∧
    (∀ (p : ASMu2D) (lr : LRSpline) (env : Env), p.lrspline = some lr →
      scRecovery p env = Except.ok (scRecoveryBody p lr env)) :=
  ⟨fun p env h => by simp [scRecovery, h], fun p lr env h => by simp [scRecovery, h]⟩

/-- Witness for C10 at the concrete empty and non-empty patches. -/
theorem scRecovery_null_mesh_C10_witness :
    scRecovery pNone envFailSolve = Except.error () ∧
    scRecovery pW envFailSolve = Except.ok (scRecoveryBody pW lrW envFailSolve) :=
  ⟨scRecovery_null_mesh_C10.1 pNone envFailSolve rfl,
   scRecovery_null_mesh_C10.2 pW lrW envFailSolve rfl⟩

/-- Witness for C2 at the documented concrete grid: entry at flat index
2*3+1 of the first output is input entry 1, and of the second output is 5. -/
theorem expandTensorGrid_spec_C2_witness :
    (expandTensorGrid [0, 1, 2] [2, 3, 5]).1.getD (2 * 3 + 1) 0 =
      ([0, 1, 2] : List ℚ).getD 1 0 ∧
    (expandTensorGrid [0, 1, 2] [2, 3, 5]).2.getD (2 * 3 + 1) 0 =
      ([2, 3, 5] : List ℚ).getD 2 0 :=
  expandTensorGrid_spec_C2.2.1 [0, 1, 2] [2, 3, 5] 2 1 (by decide) (by decide)
